import Mathlib

/-!
Verification of the inference-serving core of an LSTM stock-price service.

The development shallowly embeds the two core modules:

* `app/model_loader.py` — a global artifact cache for the model and the
  scaler, with lazy loading, caching and a load-attempted flag
  (`LoaderState`, `getModel`, `getScaler`, `loadModelAndScaler`,
  `clearCache`, `isModelLoaded`, `isScalerLoaded`);
* `app/inference.py` — the `InferencePipeline` prediction pipeline
  (validate → prepare features → trailing window → scale → reshape →
  model → denormalize), with its try/except error-propagation policy;
* `app/schemas.py` — the `CandleData` record validation
  (`validateCandle`).

Python exceptions are embedded as the inductive `PyErr`; machine floats are
embedded as rationals (the claims under study are about data flow, windowing
and error propagation, not rounding); the opaque artifacts (Keras model,
scikit-learn scaler) are parameters: a scaler is a pair of fallible matrix
transforms, a model a fallible tensor evaluator.  Storage reads are
parameters of type `Except PyErr ℕ` (the ℕ is the opaque loaded handle), and
each accessor reports whether it performed a storage read.
-/

/-- Python exception values as the pipeline observes them: `ValueError`
(message), `RuntimeError` either raised bare (`__cause__ = None`) or via
`raise ... from e` (`__cause__ = e`), and any other exception reduced to its
message (e.g. `FileNotFoundError`, `IndexError`). -/
inductive PyErr where
  | valueError (msg : String)
  | runtimeError (msg : String)
  | runtimeErrorFrom (msg : String) (cause : PyErr)
  | exception (msg : String)
deriving DecidableEq, Repr

/-- Equality of embedded fallible results is decidable (used to evaluate
the pipeline on concrete inputs). -/
instance : DecidableEq (Except PyErr ℚ) :=
  fun a b =>
    match a, b with
    | .ok x, .ok y =>
      if h : x = y then .isTrue (by rw [h]) else .isFalse (by simp [h])
    | .error x, .error y =>
      if h : x = y then .isTrue (by rw [h]) else .isFalse (by simp [h])
    | .ok _, .error _ => .isFalse (by simp)
    | .error _, .ok _ => .isFalse (by simp)

/-- `str(e)` of an embedded exception: its message. -/
def PyErr.str : PyErr → String
  | .valueError m => m
  | .runtimeError m => m
  | .runtimeErrorFrom m _ => m
  | .exception m => m

/-! ## `app/model_loader.py` — the artifact cache

The module state is the three globals `_model_cache`, `_scaler_cache`,
`_load_attempted`.  Each accessor takes the outcome the underlying storage
read would have (`Except PyErr ℕ`: `joblib.load`/`tf.keras.models.load_model`
returning a handle, or raising) and returns the call's result, the new module
state, and whether a storage read was performed. -/

/-- The three module-level globals of `app/model_loader.py`. -/
structure LoaderState where
  modelCache : Option ℕ
  scalerCache : Option ℕ
  loadAttempted : Bool
deriving DecidableEq, Repr

/-- The state at process start: `_model_cache = None`, `_scaler_cache = None`,
`_load_attempted = False`. -/
def initialState : LoaderState := ⟨none, none, false⟩

/-- The latched error raised by `get_model` when `_load_attempted` is set and
no model is cached (model_loader.py lines 35–39). -/
def latchedModelError : PyErr :=
  .runtimeError
    "Tentativa anterior de carregar o modelo falhou. Reinicie a aplicação."

/-- `get_model()` (model_loader.py lines 20–68).  Returns
`(result, new state, performed a storage read)`.  On a cached model it
returns it at once; on `_load_attempted` with no cache it raises the latched
error; otherwise it sets `_load_attempted`, performs the storage read,
caches the handle on success, and on failure clears `_model_cache` AND
resets `_load_attempted` to `False` (lines 66–67) before re-raising wrapped
in `RuntimeError` with the cause attached (line 68). -/
def getModel (storage : Except PyErr ℕ) (s : LoaderState) :
    Except PyErr ℕ × LoaderState × Bool :=
  match s.modelCache with
  | some m => (.ok m, s, false)
  | none =>
    if s.loadAttempted then
      (.error latchedModelError, s, false)
    else
      match storage with
      | .ok m =>
        (.ok m, { s with modelCache := some m, loadAttempted := true }, true)
      | .error e =>
        (.error (.runtimeErrorFrom ("Falha ao carregar modelo: " ++ e.str) e),
         { s with modelCache := none, loadAttempted := false }, true)

/-- `get_scaler()` (model_loader.py lines 71–107).  No load-attempted flag:
on a cache miss it always performs the storage read; on failure it clears
`_scaler_cache` (line 106) and re-raises wrapped in `RuntimeError` with the
cause attached (line 107). -/
def getScaler (storage : Except PyErr ℕ) (s : LoaderState) :
    Except PyErr ℕ × LoaderState × Bool :=
  match s.scalerCache with
  | some sc => (.ok sc, s, false)
  | none =>
    match storage with
    | .ok sc => (.ok sc, { s with scalerCache := some sc }, true)
    | .error e =>
      (.error (.runtimeErrorFrom ("Falha ao carregar scaler: " ++ e.str) e),
       { s with scalerCache := none }, true)

/-- `load_model_and_scaler()` (model_loader.py lines 110–126): `get_model()`
then `get_scaler()`; any exception propagates (the re-raise in its handler is
a bare `raise`).  Returns the combined result, the final state, and the pair
of read flags `(model read, scaler read)`. -/
def loadModelAndScaler (mStorage sStorage : Except PyErr ℕ) (s : LoaderState) :
    Except PyErr (ℕ × ℕ) × LoaderState × (Bool × Bool) :=
  match getModel mStorage s with
  | (.error e, s1, r1) => (.error e, s1, (r1, false))
  | (.ok m, s1, r1) =>
    match getScaler sStorage s1 with
    | (.error e, s2, r2) => (.error e, s2, (r1, r2))
    | (.ok sc, s2, r2) => (.ok (m, sc), s2, (r1, r2))

/-- `is_model_loaded()` (model_loader.py lines 129–131). -/
def isModelLoaded (s : LoaderState) : Bool := s.modelCache.isSome

/-- `is_scaler_loaded()` (model_loader.py lines 134–136). -/
def isScalerLoaded (s : LoaderState) : Bool := s.scalerCache.isSome

/-- `clear_cache()` (model_loader.py lines 167–177): resets all three
globals to their initial values. -/
def clearCache (_s : LoaderState) : LoaderState := initialState

/-- A sequence of `get_model()` calls, one per storage outcome in the list:
the list of results, the total number of storage reads performed, and the
final state. -/
def runGetModelCalls : List (Except PyErr ℕ) → LoaderState →
    List (Except PyErr ℕ) × ℕ × LoaderState
  | [], s => ([], 0, s)
  | st :: rest, s =>
    let step := getModel st s
    let next := runGetModelCalls rest step.2.1
    (step.1 :: next.1, (if step.2.2 then 1 else 0) + next.2.1, next.2.2)

/-! ## `app/settings.py` — configuration

`Settings` keeps the fields the core reads; the defaults are the values the
environment-variable lookups fall back to. -/

/-- The configuration fields of `app/settings.py` consumed by the core. -/
structure Settings where
  MODEL_VERSION : String
  LOOKBACK : ℕ
  FEATURES : List String
  TARGET : String

/-- The default configuration (settings.py lines 13–24):
`MODEL_VERSION = "1.0"`, `LOOKBACK = 60`,
`FEATURES = "open,high,low,close,volume".split(",")`, `TARGET = "close"`. -/
def settings : Settings :=
  { MODEL_VERSION := "1.0"
    LOOKBACK := 60
    FEATURES := ["open", "high", "low", "close", "volume"]
    TARGET := "close" }

/-! ## `app/schemas.py` — the candle record -/

/-- One OHLCV candle (`CandleData`, schemas.py lines 9–31), after
validation.  The field `open` is spelled `open_` (`open` is reserved in
Lean). -/
structure Candle where
  open_ : ℚ
  high : ℚ
  low : ℚ
  close : ℚ
  volume : ℚ
deriving DecidableEq, Repr

/-- `CandleData` construction (schemas.py lines 9–31).  Pydantic validates
the fields in declaration order — `open`, `high`, `low`, `close`, `volume` —
each against its `Field` constraint (`gt=0` for the four prices, `ge=0` for
volume), then runs the field validators: `high_must_be_highest` fires while
`low` is not yet in `info.data` (it is declared after `high`), so its check
is skipped; `low_must_be_lowest` sees the already-validated `high` and
rejects `low > high`. -/
def validateCandle (o h l c v : ℚ) : Except PyErr Candle :=
  if o ≤ 0 then .error (.valueError "open: Input should be greater than 0")
  else if h ≤ 0 then .error (.valueError "high: Input should be greater than 0")
  else if l ≤ 0 then .error (.valueError "low: Input should be greater than 0")
  else if h < l then .error (.valueError "low deve ser <= high")
  else if c ≤ 0 then .error (.valueError "close: Input should be greater than 0")
  else if v < 0 then .error (.valueError "volume: Input should be greater than or equal to 0")
  else .ok ⟨o, h, l, c, v⟩

/-- `PredictionResponse` restricted to the fields the pipeline computes
(schemas.py lines 68–73; `timestamp` is a wall-clock default and
`confidence` is always `None`). -/
structure PredictionResponse where
  prediction : ℚ
  model_version : String
deriving DecidableEq, Repr

/-! ## `app/inference.py` — the prediction pipeline

The two opaque artifacts are parameters.  A scaler exposes `transform` and
`inverse_transform` on rational matrices (lists of rows); a model exposes
`predict` on a rank-3 tensor, returning a numpy array of rank 1 or 2.  Both
may raise.  The `ArtifactEnv` bundles the two accessors `get_model` /
`get_scaler` as the pipeline sees them: each access either yields the handle
or raises (e.g. the `RuntimeError` of a failed load).  Every stage that
touches an accessor also records an `Access` event, so a claim can state
that the artifact cache was or was not consulted. -/

/-- A scikit-learn scaler as consumed by the pipeline:
`transform` / `inverse_transform`, each fallible. -/
structure ScalerHandle where
  transform : List (List ℚ) → Except PyErr (List (List ℚ))
  inverseTransform : List (List ℚ) → Except PyErr (List (List ℚ))

/-- A numpy array of rank 1 or rank 2, as returned by `model.predict`. -/
inductive NDArray where
  | d1 (xs : List ℚ)
  | d2 (xss : List (List ℚ))

/-- A Keras model as consumed by the pipeline: `predict` on a
(1 × LOOKBACK × n_features) tensor. -/
structure ModelHandle where
  run : List (List (List ℚ)) → Except PyErr NDArray

/-- The artifact cache as the pipeline sees it: each accessor call either
returns the handle or raises. -/
structure ArtifactEnv where
  getScaler : Except PyErr ScalerHandle
  getModel : Except PyErr ModelHandle

/-- One consultation of the artifact cache. -/
inductive Access where
  | scaler
  | model
deriving DecidableEq, Repr

/-- The pipeline's configuration (inference.py lines 19–23):
`self.lookback = settings.LOOKBACK`, `self.features = settings.FEATURES`,
`self.n_features = len(self.features)`. -/
structure InferencePipeline where
  lookback : ℕ
  features : List String
deriving DecidableEq, Repr

/-- `self.n_features = len(self.features)` (inference.py line 23). -/
def InferencePipeline.nFeatures (pl : InferencePipeline) : ℕ :=
  pl.features.length

/-- The module-level `inference_pipeline = InferencePipeline()`
(inference.py line 206), built from the default settings. -/
def inferencePipeline : InferencePipeline :=
  { lookback := settings.LOOKBACK, features := settings.FEATURES }

/-- The `ValueError` message of `_validate_input` (inference.py lines 36–39). -/
def insufficientDataMsg (lookback got : ℕ) : String :=
  "Dados insuficientes. Esperado >= " ++ toString lookback ++
    ", recebido: " ++ toString got

/-- `_validate_input` (inference.py lines 25–41): raises `ValueError` when
fewer than `lookback` records are supplied. -/
def validateInput (pl : InferencePipeline) (data : List Candle) :
    Except PyErr Unit :=
  if data.length < pl.lookback then
    .error (.valueError (insufficientDataMsg pl.lookback data.length))
  else .ok ()

/-- `_prepare_features` (inference.py lines 43–68): each candle becomes the
row `[open, high, low, close, volume]` (the order is hard-coded in the
method body). -/
def prepareFeatures (data : List Candle) : List (List ℚ) :=
  data.map fun c => [c.open_, c.high, c.low, c.close, c.volume]

/-- `_get_last_sequence` (inference.py lines 70–83): `X[-lookback:]`.
Python slice semantics: `X[-0:]` is the whole array, `X[-k:]` for `k > 0`
is the trailing `min k (length X)` rows. -/
def getLastSequence (lookback : ℕ) (X : List (List ℚ)) : List (List ℚ) :=
  if lookback = 0 then X else X.drop (X.length - lookback)

/-- `_scale_features` (inference.py lines 85–104): `get_scaler()` then
`scaler.transform`.  Also yields the access trace. -/
def scaleFeatures (env : ArtifactEnv) (X : List (List ℚ)) :
    Except PyErr (List (List ℚ)) × List Access :=
  match env.getScaler with
  | .error e => (.error e, [.scaler])
  | .ok sc => (sc.transform X, [.scaler])

/-- `_reshape_for_lstm` (inference.py lines 106–119):
`X.reshape(1, lookback, n_features)`.  numpy reshape succeeds exactly when
the element count matches, re-chunking the row-major data; otherwise it
raises `ValueError`. -/
def reshapeForLSTM (pl : InferencePipeline) (X : List (List ℚ)) :
    Except PyErr (List (List (List ℚ))) :=
  let flat := X.flatten
  if flat.length = pl.lookback * pl.nFeatures then
    .ok [flat.toChunks pl.nFeatures]
  else .error (.valueError "cannot reshape array")

/-- Scalar extraction in `_predict` (inference.py line 134):
`prediction[0][0] if prediction.ndim > 1 else prediction[0]`; indexing an
empty axis raises `IndexError`. -/
def extractPred : NDArray → Except PyErr ℚ
  | .d1 xs =>
    match xs.head? with
    | some x => .ok x
    | none => .error (.exception "IndexError")
  | .d2 xss =>
    match xss.head? with
    | none => .error (.exception "IndexError")
    | some row =>
      match row.head? with
      | some x => .ok x
      | none => .error (.exception "IndexError")

/-- `_predict` (inference.py lines 121–138): `get_model()`, run it on the
tensor, reduce the output to one scalar.  Also yields the access trace. -/
def predictStage (env : ArtifactEnv) (t : List (List (List ℚ))) :
    Except PyErr ℚ × List Access :=
  match env.getModel with
  | .error e => (.error e, [.model])
  | .ok m =>
    match m.run t with
    | .error e => (.error e, [.model])
    | .ok out => (extractPred out, [.model])

/-- `_denormalize_prediction` (inference.py lines 140–160) given the scaler:
`dummy_array = np.zeros((1, n_features))`; `dummy_array[0, 3] = pred`
(the column index is the literal 3, and the assignment raises `IndexError`
unless `3 < n_features`); `scaler.inverse_transform(dummy_array)`; the
result's `[0, 3]` entry. -/
def denormalizePrediction (pl : InferencePipeline) (sc : ScalerHandle)
    (predNormalized : ℚ) : Except PyErr ℚ :=
  if 3 < pl.nFeatures then
    match sc.inverseTransform [(List.replicate pl.nFeatures (0 : ℚ)).set 3 predNormalized] with
    | .error e => .error e
    | .ok out =>
      match out.head? with
      | none => .error (.exception "IndexError")
      | some row =>
        match row.get? 3 with
        | some x => .ok x
        | none => .error (.exception "IndexError")
  else .error (.exception "IndexError")

/-- Modelled from the spec (§4.2 stage 7), for comparison with
`denormalizePrediction`: place the normalized prediction at the column
position of the configured target feature (the position of `"close"` in the
configured feature order), inverse-transform the zero-filled row, and
extract the value at that same column position. -/
def denormalizePredictionSpec (features : List String) (target : String)
    (sc : ScalerHandle) (predNormalized : ℚ) : Except PyErr ℚ :=
  let idx := features.indexOf target
  match sc.inverseTransform [(List.replicate features.length (0 : ℚ)).set idx predNormalized] with
  | .error e => .error e
  | .ok out =>
    match out.head? with
    | none => .error (.exception "IndexError")
    | some row =>
      match row.get? idx with
      | some x => .ok x
      | none => .error (.exception "IndexError")

/-- The `_denormalize_prediction` stage with its `get_scaler()` access
(inference.py line 150). -/
def denormStage (pl : InferencePipeline) (env : ArtifactEnv)
    (predNormalized : ℚ) : Except PyErr ℚ × List Access :=
  match env.getScaler with
  | .error e => (.error e, [.scaler])
  | .ok sc => (denormalizePrediction pl sc predNormalized, [.scaler])

/-- Stages 4–7 of `predict` (inference.py lines 181–184): scale, reshape,
model, denormalize, on the already-selected trailing window.  First failure
aborts; the access trace accumulates in execution order. -/
def runStages (pl : InferencePipeline) (env : ArtifactEnv)
    (Xseq : List (List ℚ)) : Except PyErr ℚ × List Access :=
  match scaleFeatures env Xseq with
  | (.error e, t1) => (.error e, t1)
  | (.ok scaled, t1) =>
    match reshapeForLSTM pl scaled with
    | .error e => (.error e, t1)
    | .ok tensor =>
      match predictStage env tensor with
      | (.error e, t2) => (.error e, t1 ++ t2)
      | (.ok predNormalized, t2) =>
        match denormStage pl env predNormalized with
        | (.error e, t3) => (.error e, t1 ++ t2 ++ t3)
        | (.ok predReal, t3) => (.ok predReal, t1 ++ t2 ++ t3)

/-- The body of the `try` block of `predict` (inference.py lines 177–184):
validate, prepare, window, then stages 4–7. -/
def runPipeline (pl : InferencePipeline) (env : ArtifactEnv)
    (data : List Candle) : Except PyErr ℚ × List Access :=
  match validateInput pl data with
  | .error e => (.error e, [])
  | .ok _ => runStages pl env (getLastSequence pl.lookback (prepareFeatures data))

/-- `predict` (inference.py lines 163–203): the try body, then the handlers
`except ValueError as e: raise` (any `ValueError` propagates unchanged) and
`except Exception as e: raise RuntimeError(f"Erro na predição: ...") from e`
(anything else is wrapped with the original as cause).  The `track_time`
decorator and `log_error` calls are observational only and do not affect
the result. -/
def predict (pl : InferencePipeline) (env : ArtifactEnv)
    (data : List Candle) : Except PyErr PredictionResponse × List Access :=
  match runPipeline pl env data with
  | (.ok predReal, tr) =>
    (.ok { prediction := predReal, model_version := settings.MODEL_VERSION }, tr)
  | (.error e, tr) =>
    match e with
    | .valueError m => (.error (.valueError m), tr)
    | e =>
      (.error (.runtimeErrorFrom ("Erro na predição: " ++ e.str) e), tr)

/-! ## Shared helper lemmas -/

/-- `get_model` on a state with a cached model returns the cached handle,
changes nothing and performs no storage read. -/
theorem getModel_cached (storage : Except PyErr ℕ) (s : LoaderState) (m : ℕ)
    (h : s.modelCache = some m) : getModel storage s = (.ok m, s, false) := by
  unfold getModel
  rw [h]

/-- A sequence of `get_model()` calls on a state with a cached model: every
call returns the cached handle, no storage read happens, the state is
untouched. -/
theorem runGetModelCalls_cached (sts : List (Except PyErr ℕ)) (s : LoaderState)
    (m : ℕ) (h : s.modelCache = some m) :
    runGetModelCalls sts s = (sts.map fun _ => .ok m, 0, s) := by
  induction sts with
  | nil => rfl
  | cons st rest ih =>
    unfold runGetModelCalls
    rw [getModel_cached st s m h]
    simp [ih]

/-- `get_scaler` leaves `_scaler_cache` empty whenever it fails. -/
theorem getScaler_failed_state (storage : Except PyErr ℕ) (s : LoaderState)
    (e1 : PyErr) (h : (getScaler storage s).1 = .error e1) :
    (getScaler storage s).2.1.scalerCache = none := by
  unfold getScaler at h ⊢
  cases hs : s.scalerCache with
  | some sc => rw [hs] at h; simp at h
  | none =>
    rw [hs] at h
    cases storage with
    | ok sc => simp at h
    | error e => rfl

/-- `get_scaler` on an empty cache always performs the storage read, and
succeeds whenever the read does. -/
theorem getScaler_uncached (storage : Except PyErr ℕ) (s : LoaderState)
    (h : s.scalerCache = none) :
    (getScaler storage s).2.2 = true ∧
      ∀ sc : ℕ, storage = .ok sc → (getScaler storage s).1 = .ok sc := by
  unfold getScaler
  rw [h]
  cases storage with
  | ok sc => exact ⟨rfl, fun sc' hsc' => by rw [Except.ok.inj hsc']⟩
  | error e => exact ⟨rfl, fun sc' hsc' => by cases hsc'⟩

/-- `get_model` never touches `_scaler_cache`. -/
theorem getModel_scalerCache (storage : Except PyErr ℕ) (s : LoaderState) :
    (getModel storage s).2.1.scalerCache = s.scalerCache := by
  unfold getModel
  cases s.modelCache with
  | some m => rfl
  | none =>
    by_cases hl : s.loadAttempted
    · simp [hl]
    · simp only [hl]
      cases storage <;> rfl

/-- `get_scaler` reads and writes only `_scaler_cache`: two states that
agree on it produce the same result, read flag and final scaler slot. -/
theorem getScaler_congr (storage : Except PyErr ℕ) (s1 s2 : LoaderState)
    (h : s1.scalerCache = s2.scalerCache) :
    (getScaler storage s1).1 = (getScaler storage s2).1 ∧
      (getScaler storage s1).2.2 = (getScaler storage s2).2.2 ∧
      (getScaler storage s1).2.1.scalerCache = (getScaler storage s2).2.1.scalerCache := by
  unfold getScaler
  rw [h]
  cases s2.scalerCache with
  | some sc => exact ⟨rfl, rfl, h⟩
  | none => cases storage <;> exact ⟨rfl, rfl, rfl⟩

/-! ## Claims about the artifact cache -/

/-- A failing model storage read: the model file is absent. -/
def modelStorageFailure : Except PyErr ℕ := .error (.exception "FileNotFoundError")

/-- C1 — the model-load failure is NOT latched by the code: the `except`
handler of `get_model` resets `_load_attempted` to `False` (model_loader.py
line 67), so after a failed first load the second `get_model()` call
performs another storage read and raises the fresh load error, not the
latched "Reinicie a aplicação" error; a successful storage read then loads
the model with no `clear_cache` in between.  This makes the latched branch
(lines 35–39) unreachable in sequential execution and contradicts the
claimed latching. -/
theorem getModel_failure_not_latched :
    (getModel modelStorageFailure initialState).2.2 = true ∧
    (getModel modelStorageFailure initialState).1 =
      .error (.runtimeErrorFrom "Falha ao carregar modelo: FileNotFoundError"
        (.exception "FileNotFoundError")) ∧
    (getModel modelStorageFailure (getModel modelStorageFailure initialState).2.1).2.2 = true ∧
    (getModel modelStorageFailure (getModel modelStorageFailure initialState).2.1).1 =
      .error (.runtimeErrorFrom "Falha ao carregar modelo: FileNotFoundError"
        (.exception "FileNotFoundError")) ∧
    (PyErr.runtimeErrorFrom "Falha ao carregar modelo: FileNotFoundError"
        (.exception "FileNotFoundError")) ≠ latchedModelError ∧
    (getModel (.ok 7) (getModel modelStorageFailure initialState).2.1).1 = .ok 7 := by
  exact ⟨rfl, rfl, rfl, rfl, by decide, rfl⟩

/-- C6 — artifact-cache idempotence: one successful `get_model()` from the
initial state followed by any number of further calls (whatever their
storage outcomes would be) returns the same cached handle every time and
performs exactly one storage read in total. -/
theorem getModel_idempotent_after_success (m : ℕ) (sts : List (Except PyErr ℕ)) :
    (runGetModelCalls (Except.ok m :: sts) initialState).1 =
      List.replicate (sts.length + 1) (Except.ok m) ∧
    (runGetModelCalls (Except.ok m :: sts) initialState).2.1 = 1 := by
  have hrun : runGetModelCalls (Except.ok m :: sts) initialState =
      ((Except.ok m, (⟨some m, none, true⟩ : LoaderState), true).1 ::
        (runGetModelCalls sts (Except.ok m, (⟨some m, none, true⟩ : LoaderState), true).2.1).1,
       (if (Except.ok m, (⟨some m, none, true⟩ : LoaderState), true).2.2 then 1 else 0) +
         (runGetModelCalls sts (Except.ok m, (⟨some m, none, true⟩ : LoaderState), true).2.1).2.1,
       (runGetModelCalls sts (Except.ok m, (⟨some m, none, true⟩ : LoaderState), true).2.1).2.2) := rfl
  rw [hrun]
  rw [show ((Except.ok m : Except PyErr ℕ), (⟨some m, none, true⟩ : LoaderState), true).2.1 =
    (⟨some m, none, true⟩ : LoaderState) from rfl]
  rw [runGetModelCalls_cached sts ⟨some m, none, true⟩ m rfl]
  constructor
  · simp [List.replicate_succ, List.map_const]
  · rfl

/-- C7 — the scaler-load failure is never latched: after any failed
`get_scaler()` call, the next call performs the underlying storage read
again, and succeeds as soon as the storage read does — no reset needed. -/
theorem getScaler_not_latched (st1 st2 : Except PyErr ℕ) (s : LoaderState)
    (e1 : PyErr) (h : (getScaler st1 s).1 = .error e1) :
    (getScaler st2 (getScaler st1 s).2.1).2.2 = true ∧
      ∀ sc : ℕ, st2 = .ok sc →
        (getScaler st2 (getScaler st1 s).2.1).1 = .ok sc := by
  exact getScaler_uncached st2 _ (getScaler_failed_state st1 s e1 h)

/-- Witness for C7: a failed scaler load (file absent) followed by a
successful storage read yields the loaded scaler, with a storage read
performed on the second call. -/
theorem getScaler_not_latched_witness :
    (getScaler (.ok 5) (getScaler (.error (.exception "FileNotFoundError")) initialState).2.1).2.2 = true ∧
    (getScaler (.ok 5) (getScaler (.error (.exception "FileNotFoundError")) initialState).2.1).1 = .ok 5 := by
  have h := getScaler_not_latched (.error (.exception "FileNotFoundError")) (.ok 5)
    initialState
    (.runtimeErrorFrom "Falha ao carregar scaler: FileNotFoundError"
      (.exception "FileNotFoundError")) rfl
  exact ⟨h.1, h.2 5 rfl⟩

/-- C8 counterexample — the two loads of `load_model_and_scaler` are NOT
independent: with the scaler storage available, whether the scaler load is
attempted depends on the model load's outcome.  When the model load
succeeds the scaler read happens; when the model load fails the function
returns without ever attempting the scaler read, leaving the scaler
unloaded. -/
theorem loadModelAndScaler_dependence_cex :
    (loadModelAndScaler (.ok 1) (.ok 5) initialState).2.2.2 = true ∧
    (loadModelAndScaler modelStorageFailure (.ok 5) initialState).2.2.2 = false ∧
    (loadModelAndScaler modelStorageFailure (.ok 5) initialState).2.1.scalerCache = none ∧
    isScalerLoaded (loadModelAndScaler modelStorageFailure (.ok 5) initialState).2.1 = false := by
  exact ⟨rfl, rfl, rfl, rfl⟩

/-- C8 amended — `load_model_and_scaler` sequences the model load first:
if the model load fails, its error propagates and the scaler load is never
attempted (the scaler slot is untouched); if the model load succeeds, the
scaler load proceeds exactly as a standalone `get_scaler()` on the original
state would (the two loads touch disjoint state, so on the success path
they are independent). -/
theorem loadModelAndScaler_sequencing (ms ss : Except PyErr ℕ) (s : LoaderState) :
    (∀ e : PyErr, (getModel ms s).1 = .error e →
      loadModelAndScaler ms ss s =
        (.error e, (getModel ms s).2.1, ((getModel ms s).2.2, false)) ∧
      (getModel ms s).2.1.scalerCache = s.scalerCache) ∧
    (∀ m : ℕ, (getModel ms s).1 = .ok m →
      (loadModelAndScaler ms ss s).1 = (getScaler ss s).1.map (fun sc => (m, sc)) ∧
      (loadModelAndScaler ms ss s).2.2.2 = (getScaler ss s).2.2 ∧
      (loadModelAndScaler ms ss s).2.1.scalerCache = (getScaler ss s).2.1.scalerCache) := by
  obtain ⟨mc, scc, la⟩ := s
  cases mc <;> cases scc <;> cases la <;> cases ms <;> cases ss <;>
    simp [loadModelAndScaler, getModel, getScaler, Except.map, latchedModelError]

/-- Witness for C8 amended: with both storages available, the combined
load's scaler-read flag equals that of a standalone `get_scaler()` call. -/
theorem loadModelAndScaler_sequencing_witness :
    (loadModelAndScaler (.ok 1) (.ok 5) initialState).2.2.2 =
      (getScaler (.ok 5) initialState).2.2 := by
  exact ((loadModelAndScaler_sequencing (.ok 1) (.ok 5) initialState).2 1 rfl).2.1

/-- C10 — error atomicity of the artifact cache: whenever an accessor call
that performed a storage read fails, it leaves its artifact's slots at
their initial values — `get_model` resets `_model_cache` to `None` and
`_load_attempted` to `False`, `get_scaler` resets `_scaler_cache` to
`None` — so `is_model_loaded` / `is_scaler_loaded` report `False`
afterwards. -/
theorem load_failure_resets_cache (storage : Except PyErr ℕ) (s : LoaderState) :
    (∀ e : PyErr, (getModel storage s).2.2 = true →
      (getModel storage s).1 = .error e →
      (getModel storage s).2.1.modelCache = none ∧
        (getModel storage s).2.1.loadAttempted = false ∧
        isModelLoaded (getModel storage s).2.1 = false) ∧
    (∀ e : PyErr, (getScaler storage s).2.2 = true →
      (getScaler storage s).1 = .error e →
      (getScaler storage s).2.1.scalerCache = none ∧
        isScalerLoaded (getScaler storage s).2.1 = false) := by
  obtain ⟨mc, scc, la⟩ := s
  constructor
  · intro e hread herr
    cases mc <;> cases la <;> cases storage <;>
      simp_all [getModel, isModelLoaded, latchedModelError]
  · intro e hread herr
    cases scc <;> cases storage <;>
      simp_all [getScaler, isScalerLoaded]

/-- Witness for C10: a failed model load and a failed scaler load from the
initial state each leave the cache observably unloaded. -/
theorem load_failure_resets_cache_witness :
    (getModel modelStorageFailure initialState).2.1.loadAttempted = false ∧
    isModelLoaded (getModel modelStorageFailure initialState).2.1 = false ∧
    isScalerLoaded (getScaler modelStorageFailure initialState).2.1 = false := by
  have h := load_failure_resets_cache modelStorageFailure initialState
  refine ⟨?_, ?_, ?_⟩
  · exact (h.1 (.runtimeErrorFrom "Falha ao carregar modelo: FileNotFoundError"
      (.exception "FileNotFoundError")) rfl rfl).2.1
  · exact (h.1 (.runtimeErrorFrom "Falha ao carregar modelo: FileNotFoundError"
      (.exception "FileNotFoundError")) rfl rfl).2.2
  · exact (h.2 (.runtimeErrorFrom "Falha ao carregar scaler: FileNotFoundError"
      (.exception "FileNotFoundError")) rfl rfl).2

/-! ## Claims about the candle schema and the prediction pipeline -/

/-- C9 — `CandleData` accepts exactly the valid records: construction
succeeds (yielding exactly the supplied immutable field values) if and only
if the four prices are strictly positive, the volume is non-negative and
`low ≤ high`; every record violating one of these is rejected. -/
theorem validateCandle_ok_iff (o h l c v : ℚ) :
    (∃ cd : Candle, validateCandle o h l c v = .ok cd ∧ cd = ⟨o, h, l, c, v⟩) ↔
      0 < o ∧ 0 < h ∧ 0 < l ∧ 0 < c ∧ 0 ≤ v ∧ l ≤ h := by
  unfold validateCandle
  split_ifs with h1 h2 h3 h4 h5 h6
  · simp
    intros
    linarith
  · simp
    intros
    linarith
  · simp
    intros
    linarith
  · simp
    intros
    linarith
  · simp
    intros
    linarith
  · simp
    intros
    linarith
  · simp
    exact ⟨by linarith, by linarith, by linarith, by linarith, by linarith, by linarith⟩

/-- C3 — a sequence shorter than `lookback` makes `predict` fail with the
insufficient-data `ValueError`, with an empty artifact-access trace:
neither `get_model` nor `get_scaler` is ever consulted. -/
theorem predict_insufficient_data (pl : InferencePipeline) (env : ArtifactEnv)
    (data : List Candle) (h : data.length < pl.lookback) :
    predict pl env data =
      (.error (.valueError (insufficientDataMsg pl.lookback data.length)), []) := by
  unfold predict runPipeline validateInput
  rw [if_pos h]

/-- Witness for C3: the empty sequence against the default pipeline. -/
theorem predict_insufficient_data_witness :
    ([] : List Candle).length < inferencePipeline.lookback ∧
    predict inferencePipeline
        ⟨.error (.exception "unavailable"), .error (.exception "unavailable")⟩ [] =
      (.error (.valueError (insufficientDataMsg inferencePipeline.lookback 0)), []) := by
  refine ⟨by decide, ?_⟩
  exact predict_insufficient_data inferencePipeline
    ⟨.error (.exception "unavailable"), .error (.exception "unavailable")⟩ [] (by decide)

/-- Dropping `A.length + n` elements of `A ++ B` drops `n` elements of `B`. -/
theorem drop_append_length_add (A B : List (List ℚ)) (n : ℕ) :
    (A ++ B).drop (A.length + n) = B.drop n := by
  induction A with
  | nil => simp
  | cons a A ih =>
    simp [Nat.succ_add, ih]

/-- The trailing window of `A ++ B` is the trailing window of `B` whenever
`B` already spans the window. -/
theorem getLastSequence_append (k : ℕ) (A B : List (List ℚ))
    (h1 : 0 < k) (h2 : k ≤ B.length) :
    getLastSequence k (A ++ B) = getLastSequence k B := by
  unfold getLastSequence
  rw [if_neg (by omega), if_neg (by omega)]
  rw [show (A ++ B).length - k = A.length + (B.length - k) by
    simp [List.length_append]; omega]
  exact drop_append_length_add A B (B.length - k)

/-- C2 — only the trailing `lookback` records influence the prediction:
prepending arbitrary records before a sequence that already spans the
window leaves `predict`'s entire result (value, error and access trace)
unchanged. -/
theorem predict_trailing_window (pl : InferencePipeline) (env : ArtifactEnv)
    (extra data : List Candle)
    (h1 : 0 < pl.lookback) (h2 : pl.lookback ≤ data.length) :
    predict pl env (extra ++ data) = predict pl env data := by
  have hx : getLastSequence pl.lookback (prepareFeatures (extra ++ data)) =
      getLastSequence pl.lookback (prepareFeatures data) := by
    unfold prepareFeatures
    rw [List.map_append]
    exact getLastSequence_append pl.lookback _ _ h1 (by simpa using h2)
  unfold predict runPipeline validateInput
  rw [if_neg (by simp only [List.length_append]; omega), if_neg (by omega), hx]

/-- A sample valid candle (the spec's §8 end-to-end record, prices ×10 to
stay rational-exact). -/
def sampleCandle : Candle := ⟨1502/10, 1521/10, 1498/10, 1515/10, 1000000⟩

/-- Sixty identical sample candles. -/
def sixtyCandles : List Candle := List.replicate 60 sampleCandle

/-- An artifact environment whose accessors both fail (artifacts
unavailable). -/
def unavailableEnv : ArtifactEnv :=
  ⟨.error (.exception "boom"), .error (.exception "boom")⟩

/-- Witness for C2: one extra candle prepended to sixty candles leaves the
prediction outcome unchanged. -/
theorem predict_trailing_window_witness :
    0 < inferencePipeline.lookback ∧
    inferencePipeline.lookback ≤ sixtyCandles.length ∧
    predict inferencePipeline unavailableEnv ([sampleCandle] ++ sixtyCandles) =
      predict inferencePipeline unavailableEnv sixtyCandles := by
  refine ⟨by decide, by decide, ?_⟩
  exact predict_trailing_window inferencePipeline unavailableEnv
    [sampleCandle] sixtyCandles (by decide) (by decide)

/-- A scaler whose `transform` returns a wrongly-shaped matrix (an opaque
artifact may do so, e.g. a scaler fitted on a different feature count);
`inverse_transform` is the identity. -/
def wrongShapeScaler : ScalerHandle :=
  ⟨fun _ => .ok [], fun rows => .ok rows⟩

/-- A model returning the constant normalized prediction `3/5` as a
`(1, 1)` array. -/
def constModel : ModelHandle :=
  ⟨fun _ => .ok (.d2 [[(3 : ℚ)/5]])⟩

/-- The environment for the C5 counterexample: scaler and model both load
fine, but the scaler's output shape makes stage 5 (numpy reshape) raise
`ValueError` inside stages 2–7. -/
def wrongShapeEnv : ArtifactEnv := ⟨.ok wrongShapeScaler, .ok constModel⟩

/-- C5 counterexample — not every non-validation exception raised in stages
2–7 is wrapped: on sixty valid candles with a scaler whose output shape is
wrong, stage 5 raises `ValueError("cannot reshape array")` and `predict`
re-raises it unchanged (the `except ValueError` arm catches every
`ValueError`, whatever stage raised it), instead of wrapping it in the
`RuntimeError` pipeline error with the original as cause. -/
theorem predict_stage_error_unwrapped_cex :
    (predict inferencePipeline wrongShapeEnv sixtyCandles).1 =
      .error (.valueError "cannot reshape array") ∧
    (predict inferencePipeline wrongShapeEnv sixtyCandles).1 ≠
      .error (.runtimeErrorFrom ("Erro na predição: " ++ "cannot reshape array")
        (.valueError "cannot reshape array")) := by
  have h1 : (predict inferencePipeline wrongShapeEnv sixtyCandles).1 =
      .error (.valueError "cannot reshape array") := rfl
  refine ⟨h1, ?_⟩
  rw [h1]
  intro hc
  have := Except.error.inj hc
  simp at this

/-- C5 amended — the error-propagation policy of `predict` as implemented:
whatever stage produced it, a `ValueError` (the validation error included)
propagates to the caller unchanged, and every non-`ValueError` exception is
re-raised as the single `RuntimeError("Erro na predição: ...")` carrying
the original exception as its cause. -/
theorem predict_error_propagation (pl : InferencePipeline) (env : ArtifactEnv)
    (data : List Candle) (e : PyErr)
    (h : (runPipeline pl env data).1 = .error e) :
    ((∃ m : String, e = .valueError m) → (predict pl env data).1 = .error e) ∧
    ((∀ m : String, e ≠ .valueError m) →
      (predict pl env data).1 =
        .error (.runtimeErrorFrom ("Erro na predição: " ++ e.str) e)) := by
  unfold predict
  rcases hp : runPipeline pl env data with ⟨res, tr⟩
  rw [hp] at h
  simp only at h
  subst h
  cases e with
  | valueError m =>
    refine ⟨fun _ => rfl, fun hno => absurd rfl (hno m)⟩
  | runtimeError m =>
    exact ⟨fun hyes => absurd hyes (by simp), fun _ => rfl⟩
  | runtimeErrorFrom m c =>
    exact ⟨fun hyes => absurd hyes (by simp), fun _ => rfl⟩
  | exception m =>
    exact ⟨fun hyes => absurd hyes (by simp), fun _ => rfl⟩

/-- Witness for C5 amended: with both artifacts unavailable, the scaler
accessor's failure in stage 4 is re-raised wrapped, with the original
exception as cause. -/
theorem predict_error_propagation_witness :
    (predict inferencePipeline unavailableEnv sixtyCandles).1 =
      .error (.runtimeErrorFrom ("Erro na predição: " ++ "boom")
        (.exception "boom")) := by
  exact (predict_error_propagation inferencePipeline unavailableEnv sixtyCandles
    (.exception "boom") rfl).2 (fun m hm => PyErr.noConfusion hm)

/-- Per-column scale factors of the C4 counterexample's normalizer. -/
def columnScales : List ℚ := [1, 2, 3, 4, 5]

/-- A per-column affine-free normalizer: `inverse_transform` multiplies
column `i` by `columnScales[i]`; `transform` is the identity. -/
def perColumnScaler : ScalerHandle :=
  ⟨fun rows => .ok rows,
   fun rows => .ok (rows.map fun r => List.zipWith (fun a b => a * b) r columnScales)⟩

/-- A configured feature order that places `close` first. -/
def closeFirstFeatures : List String := ["close", "open", "high", "low", "volume"]

/-- C4 counterexample — the code places the normalized prediction at the
hard-coded column index 3 (inference.py lines 153 and 156), not at the
configured position of the `close` feature: for the feature order
`[close, open, high, low, volume]` (where `close` sits at index 0) and a
per-column normalizer, the code denormalizes through column 3 (the `low`
column, scale 4) while the spec's procedure uses the `close` column
(scale 1), so the two disagree. -/
theorem denormalize_hardcoded_column_cex :
    denormalizePrediction { lookback := 60, features := closeFirstFeatures }
      perColumnScaler 1 = .ok 4 ∧
    denormalizePredictionSpec closeFirstFeatures "close" perColumnScaler 1 = .ok 1 ∧
    denormalizePrediction { lookback := 60, features := closeFirstFeatures }
        perColumnScaler 1 ≠
      denormalizePredictionSpec closeFirstFeatures "close" perColumnScaler 1 := by
  have h4 : denormalizePrediction { lookback := 60, features := closeFirstFeatures }
      perColumnScaler 1 = .ok 4 := by
    norm_num [denormalizePrediction, perColumnScaler, closeFirstFeatures, columnScales,
      InferencePipeline.nFeatures, List.replicate, List.set, List.zipWith]
  have hs1 : denormalizePredictionSpec closeFirstFeatures "close" perColumnScaler 1 =
      .ok 1 := by
    norm_num [denormalizePredictionSpec, perColumnScaler, closeFirstFeatures, columnScales,
      List.replicate, List.set, List.zipWith, List.indexOf, List.findIdx, List.findIdx.go]
  refine ⟨h4, hs1, ?_⟩
  intro hc
  rw [h4, hs1] at hc
  have := Except.ok.inj hc
  norm_num at this

/-- C4 amended — the denormalization builds a zero-filled row of the
pipeline's feature width, writes the normalized prediction at the fixed
column index 3, inverse-transforms and reads back index 3; this coincides
with the spec's target-column procedure exactly when the configured feature
order places `close` at index 3 (as the default
`[open, high, low, close, volume]` does). -/
theorem denormalize_close_at_index_three (lb : ℕ) (features : List String)
    (sc : ScalerHandle) (p : ℚ)
    (h1 : features.indexOf "close" = 3) (h2 : 3 < features.length) :
    denormalizePrediction { lookback := lb, features := features } sc p =
      denormalizePredictionSpec features "close" sc p := by
  unfold denormalizePrediction denormalizePredictionSpec InferencePipeline.nFeatures
  simp only [h1, if_pos h2]

/-- Witness for C4 amended: under the default feature order, where `close`
is at index 3, the code's denormalization agrees with the spec's. -/
theorem denormalize_close_at_index_three_witness :
    settings.FEATURES.indexOf "close" = 3 ∧
    3 < settings.FEATURES.length ∧
    denormalizePrediction inferencePipeline perColumnScaler (3/5) =
      denormalizePredictionSpec settings.FEATURES "close" perColumnScaler (3/5) := by
  refine ⟨by decide, by decide, ?_⟩
  exact denormalize_close_at_index_three 60 settings.FEATURES perColumnScaler (3/5)
    (by decide) (by decide)
